import Mathlib

/-!
Shallow embedding of the client-side interaction core of the Nôm chatbot
frontend (`src/frontend/src/App.tsx`): session state, request lifecycle,
citation resolution, highlight/expand reconciliation, and viewer-URL
normalization, together with theorems checking the specification's claims.
-/

namespace NomChatbot

/-- Request body sent to the ask endpoint (`AskRequest` in the frontend types). -/
structure AskRequest where
  question : String
  top_k : Nat
  pool_size : Nat
  rerank : Bool
deriving DecidableEq

/-- One retrieved citation (`SourceChunk` in the frontend types); `Option`
fields model TS members that may be `undefined`/`null`. -/
structure SourceChunk where
  label : String
  file_name : Option String := none
  page_number : Option Nat := none
  viewer_url : Option String := none
  text : String := ""
deriving DecidableEq

/-- Answer returned by the service (`AskResponse` in the frontend types). -/
structure AskResponse where
  answer : String
  sources : List SourceChunk
deriving DecidableEq

/-- Target region of one deferred scroll trigger (`scrollAnswerIntoView` /
`scrollPreviewIntoView` each schedule a zero-delay callback). -/
inductive ScrollTarget
  | answer
  | preview
deriving DecidableEq

/-- The component state of `App`: one field per `useState` hook, plus
`scrollRequest`, the queue of scheduled scroll-into-view callbacks. -/
structure AppState where
  request : AskRequest
  answer : Option AskResponse
  selectedSource : Option SourceChunk
  loading : Bool
  error : Option String
  expandedKey : Option String
  answerHighlighted : Bool
  scrollRequest : List ScrollTarget
deriving DecidableEq

/-- `DEFAULT_REQUEST` constant of `App.tsx`. -/
def DEFAULT_REQUEST : AskRequest :=
  { question := "Trước khi có chữ Nôm, người Việt có từng có chữ viết riêng không?"
    top_k := 10
    pool_size := 20
    rerank := true }

/-- Initial component state: the `useState` initial values of `App`. -/
def initialState : AppState :=
  { request := DEFAULT_REQUEST
    answer := none
    selectedSource := none
    loading := false
    error := none
    expandedKey := none
    answerHighlighted := false
    scrollRequest := [] }

/-- JavaScript truthiness on an optional string: `null`/`undefined` and the
empty string are falsy. -/
def jsTruthy : Option String → Option String
  | none => none
  | some s => if s = "" then none else some s

/-- `resolvedSource` memo of `App.tsx`: the selected source if set, else the
first source of the latest answer, else none. -/
def resolvedSource (s : AppState) : Option SourceChunk :=
  match s.selectedSource with
  | some src => some src
  | none => s.answer.bind (fun a => a.sources.head?)

/-- `resolvedSourceLabel` memo of `App.tsx`: fixed placeholder when no source
is resolved, else the label plus a page suffix when `page_number` is truthy. -/
def resolvedSourceLabel (s : AppState) : String :=
  match resolvedSource s with
  | none => "Chưa chọn nguồn"
  | some src =>
    let pageSuffix :=
      match src.page_number with
      | some n => if n = 0 then "" else " – trang " ++ toString n
      | none => ""
    src.label ++ pageSuffix

/-- Split a character list at the first occurrence of `sep`: the part before,
and (when `sep` occurs) the part after it. -/
def splitFirstOn (sep : Char) : List Char → List Char × Option (List Char)
  | [] => ([], none)
  | c :: cs =>
    if c = sep then ([], some cs)
    else
      let r := splitFirstOn sep cs
      (c :: r.1, r.2)

/-- Split a character list on every occurrence of `sep` (the semantics of
`String.split` with a one-character separator). -/
def splitAllOn (sep : Char) : List Char → List (List Char)
  | [] => [[]]
  | c :: cs =>
    let r := splitAllOn sep cs
    if c = sep then [] :: r
    else
      match r with
      | [] => [[c]]
      | h :: t => (c :: h) :: t

/-- Character allowed after the first character of a URL scheme. -/
def isSchemeTailChar (c : Char) : Bool :=
  c.isAlphanum || c = '+' || c = '-' || c = '.'

/-- Scan the rest of a candidate scheme: scheme characters must reach a `:`. -/
def schemeTail : List Char → Bool
  | [] => false
  | c :: cs => if c = ':' then true else isSchemeTailChar c && schemeTail cs

/-- A candidate pre-fragment URL part is accepted when it opens with an ASCII
letter followed by scheme characters up to a `:`. -/
def hasValidScheme : List Char → Bool
  | [] => false
  | c :: cs => c.isAlpha && schemeTail cs

/-- Model of a platform `URL` object: the serialization up to the fragment,
and the fragment (`none` when absent). The platform `URL` API is a browser
builtin (an external collaborator, not repository code); this model is
faithful for absolute URLs that are already in canonical serialized form and
free of percent-escapes, which is the domain the claims exercise. -/
structure JsUrl where
  base : List Char
  fragment : Option (List Char)
deriving DecidableEq

/-- Model of `new URL(s)`: succeeds exactly when the pre-fragment part carries
a scheme; the fragment is everything after the first `#`. -/
def urlParse (s : String) : Option JsUrl :=
  let r := splitFirstOn '#' s.data
  if hasValidScheme r.1 then some ⟨r.1, r.2⟩ else none

/-- `URL.hash` getter: empty when the fragment is absent or empty, else the
fragment preceded by `#`. -/
def JsUrl.hash : JsUrl → List Char
  | ⟨_, none⟩ => []
  | ⟨_, some []⟩ => []
  | ⟨_, some f⟩ => '#' :: f

/-- `URL.hash` setter: the empty string clears the fragment; a leading `#` of
the assigned value is dropped. -/
def JsUrl.setHash (u : JsUrl) (h : List Char) : JsUrl :=
  match h with
  | [] => { u with fragment := none }
  | '#' :: rest => { u with fragment := some rest }
  | _ => { u with fragment := some h }

/-- `URL.toString`: the base followed by `#` and the fragment when present. -/
def JsUrl.toStr (u : JsUrl) : String :=
  String.mk (u.base ++ match u.fragment with
    | none => []
    | some f => '#' :: f)

/-- Model of `new URLSearchParams(s)` over a fragment: a leading `?` is
dropped, pieces are split on `&`, empty pieces are skipped, and each piece is
split at its first `=` (value empty when no `=` occurs). Percent-decoding is
omitted; the model is faithful for inputs free of percent-escapes and `+`. -/
def paramsParse (l : List Char) : List (List Char × List Char) :=
  let l :=
    match l with
    | '?' :: rest => rest
    | _ => l
  (splitAllOn '&' l).filterMap (fun piece =>
    match piece with
    | [] => none
    | _ =>
      let r := splitFirstOn '=' piece
      some (r.1, r.2.getD []))

/-- Model of `URLSearchParams.toString`: each pair serialized as `key=value`,
joined by `&` (the `=` is emitted even for an empty value). -/
def paramsJoin : List (List Char × List Char) → List Char
  | [] => []
  | [p] => p.1 ++ '=' :: p.2
  | p :: rest => p.1 ++ '=' :: p.2 ++ '&' :: paramsJoin rest

/-- The reserved fragment parameter key removed before embedding a preview. -/
def searchKey : List Char := ['s', 'e', 'a', 'r', 'c', 'h']

/-- The fallback of the `catch` branch of `previewUrl`:
`absolute.split("#")[0]`, the absolute string truncated at the first `#`. -/
def truncateAtHash (s : String) : String :=
  String.mk (splitFirstOn '#' s.data).1

/-- `previewUrl` memo of `App.tsx`, parameterized by the external
`resolveViewerUrl` collaborator: none when the resolved source has no truthy
`viewer_url` or the resolver yields nothing truthy; otherwise the absolute URL
with the `search` key removed from its fragment parameters, falling back to
truncation at the first `#` when URL parsing fails. -/
def previewUrl (resolve : String → Option String) (s : AppState) : Option String :=
  match jsTruthy ((resolvedSource s).bind (fun src => src.viewer_url)) with
  | none => none
  | some raw =>
    match jsTruthy (resolve raw) with
    | none => none
    | some absolute =>
      match urlParse absolute with
      | some url =>
        let url :=
          if url.hash.length > 1 then
            let params := paramsParse (url.hash.drop 1)
            let params := params.filter (fun p => p.1 != searchKey)
            let hashStr := paramsJoin params
            url.setHash (match hashStr with
              | [] => []
              | _ => '#' :: hashStr)
          else url
        some url.toStr
      | none => some (truncateAtHash absolute)

/-- Citation identity key used by the render loop:
`file_name ?? label` concatenated with `-` and `page_number ?? idx`. -/
def citeKey (src : SourceChunk) (idx : Nat) : String :=
  (src.file_name.getD src.label) ++ "-" ++
    (match src.page_number with
     | some p => toString p
     | none => toString idx)

/-- `isActive` computation of the render loop: the resolved source matches on
both `viewer_url` and `label` (JS `===`, so two absent `viewer_url`s compare
equal), or the selected source matches on `label`. -/
def isActive (resolved selected : Option SourceChunk) (src : SourceChunk) : Bool :=
  ((resolved.bind (fun r => r.viewer_url)) == src.viewer_url
      && (resolved.map (fun r => r.label)) == some src.label)
    || ((selected.map (fun t => t.label)) == some src.label)

/-- First half of `handleSubmit`, run before the service call settles:
`setLoading(true); setError(null)`. -/
def submitPending (s : AppState) : AppState :=
  { s with loading := true, error := none }

/-- Success branch of `handleSubmit` plus its `finally`: store the response,
select its first source, collapse the expanded excerpt, highlight the answer,
schedule a scroll to the answer, stop loading. -/
def submitSucceed (s : AppState) (r : AskResponse) : AppState :=
  { s with
      answer := some r
      selectedSource := r.sources.head?
      expandedKey := none
      answerHighlighted := true
      scrollRequest := s.scrollRequest ++ [ScrollTarget.answer]
      loading := false }

/-- Catch branch of `handleSubmit` plus its `finally`; `msg` is the thrown
`Error`'s message, or `none` when a non-`Error` value was thrown. -/
def submitFail (s : AppState) (msg : Option String) : AppState :=
  { s with
      error := some (msg.getD "Failed to reach backend")
      answer := none
      answerHighlighted := false
      loading := false }

/-- `handleSourceClick`: select the source, clear the highlight, schedule a
scroll to the preview. -/
def handleSourceClick (s : AppState) (src : SourceChunk) : AppState :=
  { s with
      selectedSource := some src
      answerHighlighted := false
      scrollRequest := s.scrollRequest ++ [ScrollTarget.preview] }

/-- `clearAnswerHighlight`. -/
def clearAnswerHighlight (s : AppState) : AppState :=
  { s with answerHighlighted := false }

/-- `handleInputChange`: store the new question text, clear the highlight. -/
def handleInputChange (s : AppState) (value : String) : AppState :=
  { s with
      request := { s.request with question := value }
      answerHighlighted := false }

/-- Expand-toggle button handler: `clearAnswerHighlight()` then
`setExpandedKey(isExpanded ? null : key)`. -/
def toggleExpand (s : AppState) (key : String) : AppState :=
  { s with
      answerHighlighted := false
      expandedKey := if s.expandedKey = some key then none else some key }

/-- Quick-view button handler: `clearAnswerHighlight()` then
`handleSourceClick(source)`. -/
def quickView (s : AppState) (src : SourceChunk) : AppState :=
  handleSourceClick (clearAnswerHighlight s) src

/-- The action performed by `window.open(url, target, features)`. -/
structure OpenAction where
  url : String
  target : String
  features : String
deriving DecidableEq

/-- The open-full-text button (`Mở toàn văn`): rendered only when the resolved
source has a truthy `viewer_url`; its click handler re-resolves that raw URL
and, when the result is truthy, opens it directly — without the fragment
normalization applied by `previewUrl`. -/
def openFullText (resolve : String → Option String) (s : AppState) : Option OpenAction :=
  match jsTruthy ((resolvedSource s).bind (fun src => src.viewer_url)) with
  | none => none
  | some raw =>
    match jsTruthy (resolve raw) with
    | none => none
    | some direct => some ⟨direct, "_blank", "noopener,noreferrer"⟩

/-- Every user-visible event of the component, for the transition relation. -/
inductive Event
  | inputChange (value : String)
  | submitPending
  | submitSucceed (r : AskResponse)
  | submitFail (msg : Option String)
  | sourceClick (src : SourceChunk)
  | expandToggle (key : String)
  | quickView (src : SourceChunk)
  | answerInteract
deriving DecidableEq

/-- The transition function: each event dispatched to its handler;
`answerInteract` is the answer card's `onClick`/`onFocusCapture` handler. -/
def step (s : AppState) : Event → AppState
  | .inputChange v => handleInputChange s v
  | .submitPending => submitPending s
  | .submitSucceed r => submitSucceed s r
  | .submitFail m => submitFail s m
  | .sourceClick c => handleSourceClick s c
  | .expandToggle k => toggleExpand s k
  | .quickView c => quickView s c
  | .answerInteract => clearAnswerHighlight s

/-- Events after which a previously set highlight is off (spec-side
characterization for the highlight-clearing claim). -/
def clearsHighlightSpec : Event → Bool
  | .inputChange _ => true
  | .submitPending => false
  | .submitSucceed _ => false
  | .submitFail _ => true
  | .sourceClick _ => true
  | .expandToggle _ => true
  | .quickView _ => true
  | .answerInteract => true

/-- Display rule as the spec words it (for the resolved-label refinement):
placeholder when nothing is resolved, else the label, with the page suffix
exactly when `page_number` is present and truthy. -/
def displayLabelSpec : Option SourceChunk → String
  | none => "Chưa chọn nguồn"
  | some src =>
    match src.page_number with
    | some n => if n != 0 then src.label ++ " – trang " ++ toString n else src.label
    | none => src.label

/-- Identity resolver used by concrete scenarios: the raw URL is already
absolute. -/
def idResolve : String → Option String := fun u => some u

/-- Citation with a duplicate label and viewer link but a distinct page. -/
def dupA : SourceChunk :=
  { label := "L", file_name := some "f", page_number := some 1
    viewer_url := some "u", text := "ta" }

/-- Second citation sharing `label` and `viewer_url` with `dupA`. -/
def dupB : SourceChunk :=
  { label := "L", file_name := some "f", page_number := some 2
    viewer_url := some "u", text := "tb" }

/-- State after a successful submission answering with `[dupA, dupB]`. -/
def stDup : AppState :=
  submitSucceed initialState { answer := "ans", sources := [dupA, dupB] }

/-- Citation labelled `A` with page 3. -/
def srcA : SourceChunk :=
  { label := "A", page_number := some 3, viewer_url := some "https://host/a" }

/-- Citation labelled `B` with no page number. -/
def srcB : SourceChunk :=
  { label := "B", page_number := none, viewer_url := some "https://host/b" }

/-- State after a successful submission answering with `[srcA, srcB]`. -/
def stAB : AppState :=
  submitSucceed initialState { answer := "ans", sources := [srcA, srcB] }

/-- Citation whose viewer link carries both a page and a search fragment
parameter. -/
def srcU1 : SourceChunk :=
  { label := "A", viewer_url := some "https://host/doc#page=2&search=foo" }

/-- State resolving to `srcU1`. -/
def stU1 : AppState :=
  submitSucceed initialState { answer := "ans", sources := [srcU1] }

/-- Citation whose viewer link carries only a search fragment parameter. -/
def srcU2 : SourceChunk :=
  { label := "A", viewer_url := some "https://host/doc#search=foo" }

/-- State resolving to `srcU2`. -/
def stU2 : AppState :=
  submitSucceed initialState { answer := "ans", sources := [srcU2] }

/-- State resolving to a citation with some truthy viewer link, used with a
constant resolver. -/
def stU3 : AppState :=
  submitSucceed initialState
    { answer := "ans", sources := [{ label := "A", viewer_url := some "raw" }] }

/-- A highlighted state, for the highlight-clearing scenarios. -/
def stHi : AppState :=
  { initialState with answerHighlighted := true }

/-- A state with citation `"a"` expanded. -/
def stExp : AppState :=
  { initialState with expandedKey := some "a" }

/-- State after a successful submission whose answer has no sources. -/
def stEmpty : AppState :=
  submitSucceed initialState { answer := "ans", sources := [] }

theorem jsTruthy_some {x : Option String} {r : String} (h : jsTruthy x = some r) :
    x = some r := by
  cases x with
  | none => exact absurd h (by simp [jsTruthy])
  | some s =>
    by_cases hs : s = ""
    · simp [jsTruthy, hs] at h
    · simp [jsTruthy, hs] at h
      rw [h]

/-- Claim C1, counterexample: in `stDup` the resolved citation is `dupA`
(identity key `"f-1"`), yet `isActive` holds of `dupB` (identity key `"f-2"`)
because the code compares `viewer_url` and `label`, not the identity key. -/
theorem isActive_not_key_based :
    resolvedSource stDup = some dupA ∧
    isActive (resolvedSource stDup) stDup.selectedSource dupB = true ∧
    citeKey dupB 1 ≠ citeKey dupA 0 := by
  refine ⟨rfl, rfl, ?_⟩
  decide

/-- Claim C1 (amended): `isActive(citation)` is true iff the resolved citation
matches it on both `viewer_url` and `label`, or the selected citation matches
it on `label`; in particular, after selecting citation `B` from sources
`[A, B]` (distinct labels and links), `isActive B` is true, `isActive A` is
false, and the highlight is off. -/
theorem isActive_characterization :
    (∀ (resolved selected : Option SourceChunk) (c : SourceChunk),
      isActive resolved selected c = true ↔
        ((∃ r, resolved = some r ∧ r.viewer_url = c.viewer_url ∧ r.label = c.label) ∨
          (∃ t, selected = some t ∧ t.label = c.label))) ∧
    isActive (resolvedSource (handleSourceClick stAB srcB))
      (handleSourceClick stAB srcB).selectedSource srcB = true ∧
    isActive (resolvedSource (handleSourceClick stAB srcB))
      (handleSourceClick stAB srcB).selectedSource srcA = false ∧
    (handleSourceClick stAB srcB).answerHighlighted = false := by
  refine ⟨?_, rfl, by decide, rfl⟩
  intro resolved selected c
  cases resolved <;> cases selected <;>
    simp [isActive, Option.map_eq_some', beq_iff_eq]

/-- Claim C2, counterexample: with the identity resolver and a viewer link
whose fragment carries a `search` parameter, the open-full-text action opens
the raw absolute URL, which differs from the normalized `previewUrl`. -/
theorem openFullText_not_normalized :
    openFullText idResolve stU1 =
      some ⟨"https://host/doc#page=2&search=foo", "_blank", "noopener,noreferrer"⟩ ∧
    previewUrl idResolve stU1 = some "https://host/doc#page=2" ∧
    ("https://host/doc#page=2&search=foo" : String) ≠ "https://host/doc#page=2" := by
  refine ⟨rfl, by decide, by decide⟩

/-- Claim C2 (amended): whenever the open-full-text action fires, it opens
exactly the resolver's absolute URL for the resolved citation's raw
`viewer_url` — un-normalized, its fragment intact — in a new browsing context
(`_blank`) with `noopener,noreferrer`. -/
theorem openFullText_spec (resolve : String → Option String) (s : AppState)
    (a : OpenAction) (h : openFullText resolve s = some a) :
    (∃ src u, resolvedSource s = some src ∧ src.viewer_url = some u ∧
      resolve u = some a.url) ∧
    a.target = "_blank" ∧ a.features = "noopener,noreferrer" := by
  unfold openFullText at h
  split at h
  · exact absurd h (by simp)
  · rename_i raw hv
    split at h
    · exact absurd h (by simp)
    · rename_i direct hr
      simp only [Option.some.injEq] at h
      subst h
      have hb : (resolvedSource s).bind (fun src => src.viewer_url) = some raw :=
        jsTruthy_some hv
      obtain ⟨src, hs, hu⟩ := Option.bind_eq_some.mp hb
      exact ⟨⟨src, raw, hs, hu, jsTruthy_some hr⟩, rfl, rfl⟩

/-- Witness for the amended C2 theorem at the concrete state `stU1` with the
identity resolver. -/
theorem openFullText_spec_witness :
    (∃ src u, resolvedSource stU1 = some src ∧ src.viewer_url = some u ∧
      idResolve u =
        some (OpenAction.url
          ⟨"https://host/doc#page=2&search=foo", "_blank", "noopener,noreferrer"⟩)) ∧
    OpenAction.target
        ⟨"https://host/doc#page=2&search=foo", "_blank", "noopener,noreferrer"⟩ =
      "_blank" ∧
    OpenAction.features
        ⟨"https://host/doc#page=2&search=foo", "_blank", "noopener,noreferrer"⟩ =
      "noopener,noreferrer" :=
  openFullText_spec idResolve stU1
    ⟨"https://host/doc#page=2&search=foo", "_blank", "noopener,noreferrer"⟩ rfl

/-- Claim C3, counterexample: from a highlighted state, editing the question
text clears the highlight (the input-change handler calls
`clearAnswerHighlight`), contradicting the claim that no other event clears
it. -/
theorem inputChange_clears_highlight :
    stHi.answerHighlighted = true ∧
    (step stHi (Event.inputChange "x")).answerHighlighted = false :=
  ⟨rfl, rfl⟩

/-- Claim C3 (amended): from a highlighted state, the events that leave the
highlight off are exactly: answer-region interaction, a failing submission
settling, a citation selection (row click or quick view), a citation expand
toggle, and editing the question text; a pending submission leaves the
highlight set and a successful settlement re-sets it. -/
theorem highlight_clear_events (s : AppState) (e : Event)
    (h : s.answerHighlighted = true) :
    (step s e).answerHighlighted = false ↔ clearsHighlightSpec e = true := by
  cases e <;>
    simp [step, clearsHighlightSpec, handleInputChange, submitPending,
      submitSucceed, submitFail, handleSourceClick, toggleExpand, quickView,
      clearAnswerHighlight, h]

/-- Witness for the amended C3 theorem: the highlighted state `stHi` and the
answer-interaction event. -/
theorem highlight_clear_events_witness :
    (step stHi Event.answerInteract).answerHighlighted = false ↔
      clearsHighlightSpec Event.answerInteract = true :=
  highlight_clear_events stHi Event.answerInteract rfl

/-- Claim C4, counterexample: for sources `[{label A, page 3}, {label B, page
null}]` after a successful submit, the displayed label is `"A – trang 3"`
(the code's suffix is the Vietnamese `" – trang "`), not `"A – page 3"`. -/
theorem resolvedSourceLabel_trang :
    resolvedSourceLabel stAB = "A – trang 3" ∧
    ("A – trang 3" : String) ≠ "A – page 3" := by
  refine ⟨rfl, by decide⟩

/-- Claim C4 (amended): the displayed label is the fixed placeholder
`"Chưa chọn nguồn"` when no citation is resolved; otherwise the citation's
label followed by the suffix `" – trang {page_number}"` exactly when
`page_number` is present and truthy — so the example sources yield
`"A – trang 3"`. -/
theorem resolvedSourceLabel_spec :
    (∀ s : AppState, resolvedSourceLabel s = displayLabelSpec (resolvedSource s)) ∧
    resolvedSourceLabel stAB = "A – trang 3" := by
  refine ⟨?_, rfl⟩
  intro s
  cases h : resolvedSource s with
  | none => simp [resolvedSourceLabel, displayLabelSpec, h]
  | some src =>
    simp only [resolvedSourceLabel, displayLabelSpec, h]
    cases hp : src.page_number with
    | none => simp [hp]
    | some n =>
      by_cases hn : n = 0
      · simp [hp, hn]
      · simp [hp, hn, String.append_assoc]

/-- Claim C5: `previewUrl` is none exactly when the resolved citation lacks a
truthy `viewer_url` or the resolver yields nothing truthy; on the spec's two
fragment examples it removes the `search` key and re-serializes (dropping the
fragment marker when nothing remains); and when URL parsing fails it yields
the absolute string truncated at the first `#`. -/
theorem previewUrl_spec :
    (∀ (resolve : String → Option String) (s : AppState),
      previewUrl resolve s = none ↔
        (jsTruthy ((resolvedSource s).bind (fun src => src.viewer_url))).bind
          (fun raw => jsTruthy (resolve raw)) = none) ∧
    previewUrl idResolve stU1 = some "https://host/doc#page=2" ∧
    previewUrl idResolve stU2 = some "https://host/doc" ∧
    (∀ (absolute : String) (s : AppState),
      urlParse absolute = none →
      (jsTruthy ((resolvedSource s).bind (fun src => src.viewer_url))).isSome = true →
      absolute ≠ "" →
      previewUrl (fun _ => some absolute) s = some (truncateAtHash absolute)) := by
  refine ⟨?_, by decide, by decide, ?_⟩
  · intro resolve s
    unfold previewUrl
    cases hv : jsTruthy ((resolvedSource s).bind (fun src => src.viewer_url)) with
    | none => simp
    | some raw =>
      cases hr : jsTruthy (resolve raw) with
      | none => simp [hr]
      | some absolute =>
        cases hu : urlParse absolute with
        | none => simp [hr, hu]
        | some url => simp [hr, hu]
  · intro absolute s hparse hsome hne
    obtain ⟨raw, hraw⟩ := Option.isSome_iff_exists.mp hsome
    unfold previewUrl
    rw [hraw]
    simp only [jsTruthy, if_neg hne, hparse]

/-- Witness for the C5 theorem's conditional parts, at the scheme-less
absolute string `"relative/path#x=1"` and the state `stU3`. -/
theorem previewUrl_spec_witness :
    previewUrl (fun _ => some "relative/path#x=1") stU3 =
      some (truncateAtHash "relative/path#x=1") :=
  previewUrl_spec.2.2.2 "relative/path#x=1" stU3 (by decide) (by decide) (by decide)

/-- Claim C6: the resolved citation is the selected citation when set, else
the first source of the latest response, else none; and for a response with
an empty source list and no selection it is none and the displayed label is
the placeholder. -/
theorem resolvedSource_rule (s : AppState) :
    (∀ c, s.selectedSource = some c → resolvedSource s = some c) ∧
    (s.selectedSource = none →
      resolvedSource s = s.answer.bind (fun a => a.sources.head?)) ∧
    (∀ a, s.selectedSource = none → s.answer = some a → a.sources = [] →
      resolvedSource s = none ∧ resolvedSourceLabel s = "Chưa chọn nguồn") := by
  refine ⟨?_, ?_, ?_⟩
  · intro c hc
    simp [resolvedSource, hc]
  · intro hn
    simp [resolvedSource, hn]
  · intro a hn ha hs
    have h1 : resolvedSource s = none := by
      simp [resolvedSource, hn, ha, hs]
    exact ⟨h1, by simp [resolvedSourceLabel, h1]⟩

/-- Witness for the C6 theorem at `stEmpty`, a state holding a response with
no sources and no selection. -/
theorem resolvedSource_rule_witness :
    resolvedSource stEmpty = none ∧
    resolvedSourceLabel stEmpty = "Chưa chọn nguồn" :=
  (resolvedSource_rule stEmpty).2.2 { answer := "ans", sources := [] } rfl rfl rfl

/-- Claim C7: a failing submission sets the error to the failure's message
(or the generic backend-failure message when it carries none), discards the
response, clears the highlight, stops loading, and leaves the entered
question text unchanged. -/
theorem submit_failure_spec (s : AppState) (msg : Option String) :
    (submitFail (submitPending s) msg).error =
      some (msg.getD "Failed to reach backend") ∧
    (submitFail (submitPending s) msg).answer = none ∧
    (submitFail (submitPending s) msg).answerHighlighted = false ∧
    (submitFail (submitPending s) msg).loading = false ∧
    (submitFail (submitPending s) msg).request.question = s.request.question :=
  ⟨rfl, rfl, rfl, rfl, rfl⟩

/-- Claim C8: submission first sets loading and clears the error while
pending; a successful settlement then stores the response, selects its first
source (none when the list is empty), collapses the expanded excerpt, sets
the highlight, schedules a scroll to the answer, and stops loading. -/
theorem submit_success_spec (s : AppState) (r : AskResponse) :
    (submitPending s).loading = true ∧
    (submitPending s).error = none ∧
    (submitSucceed (submitPending s) r).answer = some r ∧
    (submitSucceed (submitPending s) r).selectedSource = r.sources.head? ∧
    (submitSucceed (submitPending s) r).expandedKey = none ∧
    (submitSucceed (submitPending s) r).answerHighlighted = true ∧
    (submitSucceed (submitPending s) r).scrollRequest =
      s.scrollRequest ++ [ScrollTarget.answer] ∧
    (submitSucceed (submitPending s) r).loading = false :=
  ⟨rfl, rfl, rfl, rfl, rfl, rfl, rfl, rfl⟩

/-- Claim C9, counterexample: with citation `"a"` expanded, toggling key
`"b"` twice leaves `expandedKey` at none, not at its prior value
`some "a"`. -/
theorem toggleExpand_twice_not_identity :
    stExp.expandedKey = some "a" ∧
    (toggleExpand (toggleExpand stExp "b") "b").expandedKey = none ∧
    (some "a" : Option String) ≠ none := by
  refine ⟨rfl, by decide, by decide⟩

/-- Claim C9 (amended): `toggleExpand k` sets `expandedKey` to none when it
already equals `k` and to `k` otherwise, clears the highlight, and leaves the
selected citation unchanged; applying it twice with the same key yields
`some k` when the prior value was `some k` and none otherwise — so it
restores the prior value exactly when the prior value was `k` or none. -/
theorem toggleExpand_spec (s : AppState) (k : String) :
    (toggleExpand s k).expandedKey =
      (if s.expandedKey = some k then none else some k) ∧
    (toggleExpand s k).answerHighlighted = false ∧
    (toggleExpand s k).selectedSource = s.selectedSource ∧
    (toggleExpand (toggleExpand s k) k).expandedKey =
      (if s.expandedKey = some k then some k else none) := by
  by_cases h : s.expandedKey = some k <;>
    simp [toggleExpand, h]

/-- Claim C10: the failure branch of submission leaves the selected citation,
the expanded key, the request draft, and the pending scroll queue unchanged —
it touches only the error, the response, the highlight, and the loading
flag. -/
theorem submit_failure_frame (s : AppState) (msg : Option String) :
    (submitFail s msg).selectedSource = s.selectedSource ∧
    (submitFail s msg).expandedKey = s.expandedKey ∧
    (submitFail s msg).request = s.request ∧
    (submitFail s msg).scrollRequest = s.scrollRequest :=
  ⟨rfl, rfl, rfl, rfl⟩

end NomChatbot
